import Mathlib

/-!
Verification of the Hopsworks Kubernetes installer scripts.

This development shallowly embeds the claim-relevant parts of the installer
repository (`install-hopsworks.py`, `total-install.py`, `hop-deploy.py`,
`pro_eks.py`, `ultimate_hops.py`, `eks_test.py`) into Lean and proves or
refutes the specification's claims about them.

Conventions of the embedding:
* Python dictionaries are association lists `List (String × α)` together with
  the lookup / update / construction operations of namespace `PyDict`, which
  mirror CPython semantics (insertion order preserved, update replaces the
  value in place, `dict(items)` keeps the last binding of a duplicated key).
* External processes (kubectl, helm, cloud CLIs, HTTP) are oracles passed in
  as explicit parameters; the functions additionally return the trace of
  commands that were really spawned, so that "this command was (not)
  executed" becomes a statement about the trace.
* Unbounded `while` loops are modelled with an explicit fuel argument: a
  result of `none` after `fuel` steps means the loop is still running at that
  point, so "for every fuel the result is `none`" expresses divergence.
* Machine floats appear only in the readiness-ratio comparison
  `ready/total >= 0.7`; it is modelled over `ℚ`, which agrees with the IEEE
  comparison for all the small fractions involved in the claims.
-/

set_option maxHeartbeats 1000000
set_option maxRecDepth 100000

namespace PyDict

/-- Python dict lookup `d[k]` / `d.get(k)`: the binding of `k` in the
association list (for genuine Python dicts keys are unique, so first match). -/
def pyGet {α : Type} (d : List (String × α)) (k : String) : Option α :=
  match d with
  | [] => none
  | (k', v) :: rest => if k' = k then some v else pyGet rest k

/-- Python `d[k] = v`: replace the binding in place, or append a new one. -/
def setKey {α : Type} (d : List (String × α)) (k : String) (v : α) :
    List (String × α) :=
  match d with
  | [] => [(k, v)]
  | (k', v') :: rest =>
    if k' = k then (k', v) :: rest else (k', v') :: setKey rest k v

/-- Python `d.update(u)`: fold the bindings of `u` into `d` left to right. -/
def dictUpdate {α : Type} (d u : List (String × α)) : List (String × α) :=
  u.foldl (fun acc kv => setKey acc kv.1 kv.2) d

/-- Python `dict(items)`: build a dict from an item list (duplicate keys keep
the last value, at the position of the first occurrence). -/
def pyDict {α : Type} (items : List (String × α)) : List (String × α) :=
  dictUpdate [] items

end PyDict

namespace PyStr

/-- Does the second character list start with the first one? -/
def startsWithList : List Char → List Char → Bool
  | [], _ => true
  | _ :: _, [] => false
  | a :: as, b :: bs => a = b && startsWithList as bs

/-- Does `hay` contain `needle` as a contiguous sublist?  (Python `in`.) -/
def hasSubList (hay needle : List Char) : Bool :=
  match hay with
  | [] => needle.isEmpty
  | _ :: rest => startsWithList needle hay || hasSubList rest needle

/-- Python `needle in hay` on strings. -/
def containsSub (hay needle : String) : Bool :=
  hasSubList hay.toList needle.toList

/-- Python `s.startswith(p)`. -/
def startsWithStr (s p : String) : Bool :=
  startsWithList p.toList s.toList

/-- The whitespace characters stripped/split on by Python's `strip` and
argument-less `split`. -/
def isPyWs (c : Char) : Bool :=
  c = ' ' || c = '\n' || c = '\t' || c = '\r' || c = '\x0b' || c = '\x0c'

/-- Drop leading whitespace of a character list. -/
def dropWs : List Char → List Char
  | [] => []
  | c :: rest => if isPyWs c then dropWs rest else c :: rest

/-- Python `s.strip()` (whitespace trim on both ends). -/
def pyStrip (s : String) : String :=
  String.mk (dropWs (dropWs s.toList.reverse).reverse)

/-- Helper of `pySplitWs`: split the remaining characters, `cur` holding
the reversed current token. -/
def pySplitWsAux (cur : List Char) : List Char → List String
  | [] => if cur.isEmpty then [] else [String.mk cur.reverse]
  | c :: rest =>
    if isPyWs c then
      if cur.isEmpty then pySplitWsAux [] rest
      else String.mk cur.reverse :: pySplitWsAux [] rest
    else pySplitWsAux (c :: cur) rest

/-- Python `s.split()` with no argument: split on whitespace runs, dropping
empty pieces. -/
def pySplitWs (s : String) : List String :=
  pySplitWsAux [] s.toList

end PyStr

namespace InstallHopsworks

/-! ## `install-hopsworks.py`: helm value model

`construct_helm_command` merges `HELM_BASE_CONFIG` with
`CLOUD_SPECIFIC_VALUES[environment]` (plus dynamically resolved registry
coordinates and service-account email), flattens nested dictionaries to
dotted paths and renders each pair as a `--set` flag. -/

/-- A helm value as it occurs in the script's configuration dictionaries:
a string, a boolean (Python `True`), `None`, or a nested dictionary. -/
inductive HVal where
  | str : String → HVal
  | boolean : Bool → HVal
  | null : HVal
  | dict : List (String × HVal) → HVal
deriving Repr

/-- `HELM_BASE_CONFIG` of `install-hopsworks.py` (lines 49-56). -/
def HELM_BASE_CONFIG : List (String × HVal) :=
  [("hopsworks.service.worker.external.https.type", .str "LoadBalancer"),
   ("global._hopsworks.externalLoadBalancers.enabled", .str "true"),
   ("global._hopsworks.imagePullPolicy", .str "Always"),
   ("hopsworks.replicaCount.worker", .str "1"),
   ("rondb.clusterSize.activeDataReplicas", .str "1"),
   ("hopsfs.datanode.count", .str "2")]

/-- `CLOUD_SPECIFIC_VALUES` of `install-hopsworks.py` (lines 58-102). -/
def CLOUD_SPECIFIC_VALUES : List (String × List (String × HVal)) :=
  [("AWS",
    [("global._hopsworks.cloudProvider", .str "AWS"),
     ("global._hopsworks.ingressController.type", .str "none"),
     ("global._hopsworks.managedDockerRegistery.enabled", .str "true"),
     ("global._hopsworks.managedDockerRegistery.credHelper.enabled", .str "true"),
     ("global._hopsworks.managedDockerRegistery.credHelper.secretName", .str "awsregcred"),
     ("global._hopsworks.storageClassName", .str "ebs-gp3"),
     ("hopsworks.variables.docker_operations_managed_docker_secrets", .str "awsregcred"),
     ("hopsworks.variables.docker_operations_image_pull_secrets", .str "awsregcred"),
     ("hopsworks.dockerRegistry.preset.secrets[0]", .str "awsregcred"),
     ("externalLoadBalancers", .dict
       [("enabled", .boolean true),
        ("class", .null),
        ("annotations", .dict
          [("service.beta.kubernetes.io/aws-load-balancer-scheme", .str "internet-facing")])])]),
   ("GCP",
    [("global._hopsworks.cloudProvider", .str "GCP"),
     ("global._hopsworks.managedDockerRegistery.enabled", .str "true"),
     ("global._hopsworks.managedDockerRegistery.credHelper.enabled", .str "true"),
     ("global._hopsworks.managedDockerRegistery.credHelper.configMap", .str "docker-config"),
     ("global._hopsworks.managedDockerRegistery.credHelper.secretName", .str "gcrregcred"),
     ("hopsworks.variables.docker_operations_managed_docker_secrets", .str "gcrregcred"),
     ("hopsworks.variables.docker_operations_image_pull_secrets", .str "gcrregcred"),
     ("hopsworks.dockerRegistry.preset.secrets[0]", .str "gcrregcred"),
     ("serviceAccount.name", .str "hopsworks-sa")]),
   ("Azure",
    [("global._hopsworks.cloudProvider", .str "AZURE"),
     ("global._hopsworks.managedDockerRegistery.enabled", .str "true"),
     ("global._hopsworks.ingressController.type", .str "none"),
     ("global._hopsworks.imagePullSecretName", .str "regcred"),
     ("global._hopsworks.minio.enabled", .str "true"),
     ("serviceAccount.name", .str "hopsworks-sa"),
     ("serviceAccount.create", .str "false"),
     ("hopsworks.service.worker.external.https.type", .str "LoadBalancer"),
     ("hopsworks.service.worker.external.https.annotations.service\\.beta\\.kubernetes\\.io/azure-load-balancer-internal", .str "false")]),
   ("OVH",
    [("global._hopsworks.cloudProvider", .str "OVH")])]

/-- Key joining of `flatten_dict`: `f"{parent_key}{sep}{k}" if parent_key
else k` with the default separator `"."`. -/
def newKey (parent k : String) : String :=
  if parent = "" then k else parent ++ "." ++ k

mutual

/-- The item list accumulated by one call of `flatten_dict`:
non-dict values are emitted at their dotted key, nested dicts are flattened
recursively (the script turns the recursive result into a dict and extends
with its items). -/
def flattenItems (parent : String) : List (String × HVal) → List (String × HVal)
  | [] => []
  | (k, v) :: rest => flattenEntry (newKey parent k) v ++ flattenItems parent rest

/-- Flatten one value at its already-joined key. -/
def flattenEntry (key : String) : HVal → List (String × HVal)
  | .dict entries => PyDict.pyDict (flattenItems key entries)
  | v => [(key, v)]

end

/-- `flatten_dict(d)` as called at the top level of
`construct_helm_command` (empty parent key, separator `"."`). -/
def flatten_dict (d : List (String × HVal)) : List (String × HVal) :=
  PyDict.pyDict (flattenItems "" d)

/-- Dynamically resolved managed-registry coordinates
(`self.managed_registry_info`). -/
structure RegistryInfo where
  domain : String
  namespacePath : String
deriving Repr

/-- The GCP service-account email value: `self.sa_email` is a string when
resolved and Python `None` otherwise. -/
def saEmailVal : Option String → HVal
  | some e => .str e
  | none => .null

/-- The provider value dictionary after the dynamic updates of
`construct_helm_command` (lines 222-245): `CLOUD_SPECIFIC_VALUES[env].copy()`
updated with the managed-registry domain/namespace for AWS and GCP (GCP also
adds the service-account annotation); unrecognized environments contribute
nothing. -/
def cloud_config_full (env : String) (reg : Option RegistryInfo)
    (sa : Option String) : List (String × HVal) :=
  match PyDict.pyGet CLOUD_SPECIFIC_VALUES env with
  | none => []
  | some cfg =>
    if env = "AWS" then
      match reg with
      | some r => PyDict.dictUpdate cfg
          [("global._hopsworks.managedDockerRegistery.domain", .str r.domain),
           ("global._hopsworks.managedDockerRegistery.namespace", .str r.namespacePath)]
      | none => cfg
    else if env = "GCP" then
      match reg with
      | some r => PyDict.dictUpdate cfg
          [("global._hopsworks.managedDockerRegistery.domain", .str r.domain),
           ("global._hopsworks.managedDockerRegistery.namespace", .str r.namespacePath),
           ("serviceAccount.annotations.iam\\.gke\\.io/gcp-service-account", saEmailVal sa)]
      | none => cfg
    else cfg

/-- `helm_values` after the base copy and the cloud-specific update
(`helm_values.update(cloud_config)` only happens when the environment is a
key of `CLOUD_SPECIFIC_VALUES`). -/
def merged_helm_values (env : String) (reg : Option RegistryInfo)
    (sa : Option String) : List (String × HVal) :=
  if (PyDict.pyGet CLOUD_SPECIFIC_VALUES env).isSome then
    PyDict.dictUpdate HELM_BASE_CONFIG (cloud_config_full env reg sa)
  else HELM_BASE_CONFIG

/-- `flat_values = flatten_dict(helm_values)`. -/
def flat_helm_values (env : String) (reg : Option RegistryInfo)
    (sa : Option String) : List (String × HVal) :=
  flatten_dict (merged_helm_values env reg sa)

/-- Rendering of one flat value (lines 251-260): `None` becomes the literal
`null`, booleans are lower-cased, strings are double-quoted.  (A dict can
never survive flattening; the final branch mirrors the quoted-`str` catch-all
on such an impossible value.) -/
def render_value : HVal → String
  | .null => "null"
  | .boolean b => if b then "true" else "false"
  | .str s => "\"" ++ s ++ "\""
  | .dict _ => "\"<dict>\""

/-- The `--set key=value` flags appended for the flat values. -/
def set_args (env : String) (reg : Option RegistryInfo) (sa : Option String) :
    List String :=
  (flat_helm_values env reg sa).map
    (fun kv => "--set " ++ kv.1 ++ "=" ++ render_value kv.2)

/-- `construct_helm_command` (lines 197-270): the full assembled command. -/
def construct_helm_command (ns env : String) (reg : Option RegistryInfo)
    (sa : Option String) : String :=
  String.intercalate " "
    (["helm upgrade --install hopsworks-release hopsworks/hopsworks",
      "--namespace=" ++ ns,
      "--create-namespace",
      "--values hopsworks/values.yaml"]
     ++ set_args env reg sa
     ++ ["--timeout 60m", "--devel"])

/-! ## `install-hopsworks.py`: telemetry (`send_user_data`, lines 1288-1316,
and its caller `handle_license_and_user_data`, lines 1091-1106) -/

/-- Outcome of the HTTP POST to the telemetry endpoint: a response with a
status code, or a `urllib.error.URLError` (the unreachable-endpoint case). -/
inductive PostOutcome where
  | response : Nat → PostOutcome
  | urlError : String → PostOutcome
deriving Repr, DecidableEq

/-- The JSON body of the telemetry POST (lines 1291-1297); `genId` is the
`str(uuid.uuid4())` generated at the top of `send_user_data`. -/
def telemetry_body (name email company licenseType : String) (agreed : Bool)
    (genId timestamp : String) : List (String × String) :=
  [("name", name), ("email", email), ("company", company),
   ("license_type", licenseType),
   ("agreed_to_license", if agreed then "true" else "false"),
   ("installation_id", genId),
   ("action", "install_hopsworks"),
   ("installation_date", timestamp)]

/-- `send_user_data`: status 200 returns `(True, installation_id)`; any
other status raises `HTTPError`, and both `HTTPError` and `URLError` are
caught by the function's own handler, which returns
`(False, installation_id)` — the generated identifier in both cases. -/
def send_user_data (genId : String) (outcome : PostOutcome) : Bool × String :=
  match outcome with
  | .response 200 => (true, genId)
  | .response _ => (false, genId)
  | .urlError _ => (false, genId)

/-- `handle_license_and_user_data` (the part after the license step): the
installation id kept in the installer state.  With `--no-user-data` it is
`"debug_mode"`; otherwise it is the id returned by `send_user_data` on
success and the literal `"unknown"` on failure. -/
def handle_license_and_user_data (noUserData : Bool) (genId : String)
    (outcome : PostOutcome) : String :=
  if noUserData then "debug_mode"
  else
    match send_user_data genId outcome with
    | (true, newId) => newId
    | (false, _) => "unknown"

/-! ## `install-hopsworks.py`: readiness monitor (`wait_for_deployment`,
lines 1318-1424)

The loop is clocked in seconds from `start_time`.  `ready t` is the
`check_status` verdict of the poll at time `t`, `override t` says whether
the operator's key listener has set `override_flag` by time `t`, and
`intr t` whether a `KeyboardInterrupt` is delivered at time `t`.  A fuel
argument bounds the number of executed loop iterations; `none` means the
loop is still running when the fuel runs out, so divergence is the
statement that every fuel yields `none`. -/

/-- The inner wait after the timeout message (lines 1398-1400):
`while not override_flag.is_set(): time.sleep(1)`, with a
`KeyboardInterrupt` escaping to the handler that returns `False`. -/
def timeout_wait (overrideF intr : Nat → Bool) : Nat → Nat → Option Bool
  | 0, _ => none
  | fuel + 1, t =>
    if intr t then some false
    else if overrideF t then some true
    else timeout_wait overrideF intr fuel (t + 1)

/-- The main polling loop of `wait_for_deployment`: check the override
flag, then the timeout (entering the blocking inner wait), then the status
poll; otherwise sleep 5 seconds and iterate. -/
def wait_for_deployment (ready overrideF intr : Nat → Bool) (timeout : Nat) :
    Nat → Nat → Option Bool
  | 0, _ => none
  | fuel + 1, t =>
    if intr t then some false
    else if overrideF t then some true
    else if timeout ≤ t then timeout_wait overrideF intr fuel t
    else if ready t then some true
    else wait_for_deployment ready overrideF intr timeout fuel (t + 5)

/-! ## `install-hopsworks.py`: endpoint resolver
(`get_load_balancer_address`, lines 1160-1200) -/

/-- One load-balancer ingress entry of the JSON status
(`status.loadBalancer.ingress[i]`). -/
structure IngressEntry where
  hostname : Option String
  ip : Option String
deriving Repr, DecidableEq

/-- One service from `kubectl get svc … -o json`. -/
structure SvcStatus where
  ingress : List IngressEntry
deriving Repr, DecidableEq

/-- The results the cluster returns for the four queries the resolver can
issue, each as `(succeeded, stdout)` (the jsonpath hostname query, the
jsonpath ip query, the `-o wide`-plus-grep scan) or `(succeeded, parse)`
for the structured `--field-selector type=LoadBalancer -o json` query,
where `none` stands for a `json.JSONDecodeError`. -/
structure ClusterView where
  hostnameOut : Bool × String
  ipOut : Bool × String
  wideOut : Bool × String
  jsonOut : Bool × Option (List SvcStatus)
deriving Repr, DecidableEq

/-- The four queries, in the order the resolver issues them. -/
inductive QueryKind where
  | hostnameQ | ipQ | wideScan | jsonQuery
deriving Repr, DecidableEq

/-- Python `a or b` on two optional strings (an empty string is falsy). -/
def pyOr (a b : Option String) : Option String :=
  match a with
  | some s => if s = "" then b else some s
  | none => b

/-- The middle fallback (lines 1176-1184): `kubectl get svc -o wide`
piped through `grep LoadBalancer | grep hopsworks-release`; the whole
output is whitespace-split and column 5 (0-based) is accepted unless it is
the `<pending>`/`<none>` placeholder.  Yields `none` to fall through. -/
def wide_scan_result (v : ClusterView) : Option String :=
  if v.wideOut.1 && PyStr.pyStrip v.wideOut.2 ≠ "" then
    let parts := PyStr.pySplitWs v.wideOut.2
    if 6 ≤ parts.length then
      let externalIp := parts.getD 5 ""
      if externalIp ≠ "<pending>" && externalIp ≠ "<none>" then some externalIp
      else none
    else none
  else none

/-- The last resort (lines 1186-1198): walk the parsed services and, at the
first one whose ingress list is non-empty, return
`ingress[0].get('hostname') or ingress[0].get('ip')` — later services are
not examined even when that value is `None`. -/
def json_stage : List SvcStatus → Option String
  | [] => none
  | svc :: rest =>
    match svc.ingress with
    | [] => json_stage rest
    | e :: _ => pyOr e.hostname e.ip

/-- `get_load_balancer_address`, returning the address (or `None`) together
with the trace of queries actually issued. -/
def get_load_balancer_address (v : ClusterView) :
    Option String × List QueryKind :=
  if v.hostnameOut.1 && PyStr.pyStrip v.hostnameOut.2 ≠ "" then
    (some (PyStr.pyStrip v.hostnameOut.2), [.hostnameQ])
  else if v.ipOut.1 && PyStr.pyStrip v.ipOut.2 ≠ "" then
    (some (PyStr.pyStrip v.ipOut.2), [.hostnameQ, .ipQ])
  else
    match wide_scan_result v with
    | some addr => (some addr, [.hostnameQ, .ipQ, .wideScan])
    | none =>
      let jsonRes :=
        if v.jsonOut.1 then
          match v.jsonOut.2 with
          | some services => json_stage services
          | none => none
        else none
      (jsonRes, [.hostnameQ, .ipQ, .wideScan, .jsonQuery])

/-- A cluster whose named-service queries and wide scan are empty and whose
structured query parses two load-balancer services: the first has an
ingress entry with neither hostname nor ip, the second has an ip. -/
def maskedView : ClusterView :=
  { hostnameOut := (true, ""),
    ipOut := (true, ""),
    wideOut := (true, ""),
    jsonOut := (true, some [⟨[⟨none, none⟩]⟩, ⟨[⟨none, some "1.2.3.4"⟩]⟩]) }

/-- A cluster where every query fails. -/
def emptyView : ClusterView :=
  { hostnameOut := (false, ""),
    ipOut := (false, ""),
    wideOut := (false, ""),
    jsonOut := (false, none) }

end InstallHopsworks

namespace CommandRunner

/-! ## The command runners

`run_command` of `install-hopsworks.py` (lines 114-128): runs the command
via `subprocess.run`, returns `(returncode == 0, stdout, stderr)`, and a
catch-all handler converts any raised exception into `(False, "", str(e))`.

`run_command` of `pro_eks.py` (lines 33-49): same, but `subprocess.run` is
given a timeout; on `subprocess.TimeoutExpired` (the child having been
killed by `subprocess.run`) it returns `(False, "", "Timeout")`. -/

/-- What the attempt to execute a child process can come to: a process that
exited with a code and output streams, or an exception raised while
spawning/communicating. -/
inductive ProcOutcome where
  | exited : Int → String → String → ProcOutcome
  | raised : String → ProcOutcome
deriving Repr, DecidableEq

/-- Outcomes for the timeout-equipped variant: an exit before the deadline,
or the `TimeoutExpired` of an expired deadline. -/
inductive ProcOutcomeT where
  | exited : Int → String → String → ProcOutcomeT
  | timedOut : ProcOutcomeT
deriving Repr, DecidableEq

/-- `run_command` of `install-hopsworks.py` (result triple). -/
def run_command : ProcOutcome → Bool × String × String
  | .exited code out err => (code == 0, out, err)
  | .raised msg => (false, "", msg)

/-- `run_command` of `pro_eks.py` (result triple of the timeout variant). -/
def run_command_timeout : ProcOutcomeT → Bool × String × String
  | .exited code out err => (code == 0, out, err)
  | .timedOut => (false, "", "Timeout")

end CommandRunner

namespace HopDeploy

/-! ## `hop-deploy.py`: `wait_for_pods_ready` (lines 570-611)

One poll cycle parses `kubectl get pods -o json`, counts ready pods and
ready pods whose name contains one of the critical substrings, computes
`ready_pods / total_pods` (a `ZeroDivisionError` when there are no pods)
and reports readiness when the ratio reaches the threshold and
`critical_ready == len(critical_pods)`.  `eks_test.py` lines 471-512
contain the identical function. -/

/-- One entry of a pod's `status.containerStatuses`; `ready` is absent when
the JSON object has no such key (`cont.get('ready', False)`). -/
structure ContainerStatus where
  ready : Option Bool
deriving Repr, DecidableEq

/-- One pod of the listing: its `metadata.name` and its container statuses
(`pod['status'].get('containerStatuses', [])`). -/
structure Pod where
  name : String
  containerStatuses : List ContainerStatus
deriving Repr, DecidableEq

/-- `critical_pods` (line 574). -/
def critical_pods : List String :=
  ["namenode", "resourcemanager", "hopsworks", "mysql"]

/-- `all(cont.get('ready', False) for cont in …)`: a pod with an empty
container-status list counts as ready. -/
def podIsReady (p : Pod) : Bool :=
  p.containerStatuses.all (fun c => c.ready.getD false)

/-- Does the pod's name contain one of the critical substrings? -/
def hasCriticalName (p : Pod) : Bool :=
  critical_pods.any (fun c => PyStr.containsSub p.name c)

/-- `ready_pods` of one cycle. -/
def readyCount (pods : List Pod) : Nat :=
  (pods.filter podIsReady).length

/-- `critical_ready` of one cycle: ready pods whose name contains a
critical substring (each such pod counted once). -/
def criticalReadyCount (pods : List Pod) : Nat :=
  (pods.filter (fun p => podIsReady p && hasCriticalName p)).length

/-- One successful-query poll cycle of `wait_for_pods_ready`: computing
`readiness_ratio = ready_pods / total_pods` raises `ZeroDivisionError`
when the listing is empty (there is no guard and no handler in the
function); otherwise the cycle's verdict is
`readiness_ratio >= readiness_threshold and critical_ready ==
len(critical_pods)`.  The float comparison is modelled over `ℚ`. -/
def wait_for_pods_ready_cycle (pods : List Pod) (threshold : ℚ) :
    Except String Bool :=
  if pods.length = 0 then .error "ZeroDivisionError"
  else
    .ok (decide ((readyCount pods : ℚ) / (pods.length : ℚ) ≥ threshold)
         && criticalReadyCount pods == critical_pods.length)

/-- A seven-pod listing with five ready pods in which every pod whose name
contains a critical substring is ready — but only three pods carry critical
names. -/
def sevenPodListing : List Pod :=
  [⟨"namenode-0", [⟨some true⟩]⟩,
   ⟨"resourcemanager-0", [⟨some true⟩]⟩,
   ⟨"mysql-0", [⟨some true⟩]⟩,
   ⟨"app-a", [⟨some true⟩]⟩,
   ⟨"app-b", [⟨some true⟩]⟩,
   ⟨"web-0", [⟨some false⟩]⟩,
   ⟨"cache-0", [⟨none⟩]⟩]

/-- A seven-pod listing with one ready pod per critical name plus one other
ready pod and two unready ones. -/
def canonicalPodListing : List Pod :=
  [⟨"namenode-0", [⟨some true⟩]⟩,
   ⟨"resourcemanager-0", [⟨some true⟩]⟩,
   ⟨"hopsworks-instance-0", [⟨some true⟩]⟩,
   ⟨"mysql-0", [⟨some true⟩]⟩,
   ⟨"app-a", [⟨some true⟩]⟩,
   ⟨"web-0", [⟨some false⟩]⟩,
   ⟨"cache-0", [⟨none⟩]⟩]

end HopDeploy

namespace TotalInstall

/-! ## `total-install.py`

`run_command` (lines 65-79) takes a `dry_run` flag: a dry run only logs the
command and reports `(True, "", "")` without spawning anything.  To make
"was a process really spawned" provable, each modelled operation returns,
besides its Python result, the list of command lines actually passed to
`subprocess.run`.  The process world is an oracle
`cenv : String → Int × String × String` giving exit code, stdout and
stderr of a really-executed command. -/

/-- The outside world: exit code, stdout, stderr of each command line. -/
def CmdEnv : Type := String → Int × String × String

/-- `run_command(command, verbose, dry_run)`: the result triple, paired
with the list of really spawned command lines (empty on a dry run). -/
def run_command (cenv : CmdEnv) (command : String) (verbose dryRun : Bool) :
    (Bool × String × String) × List String :=
  if dryRun then ((true, "", ""), [])
  else
    let r := cenv command
    ((r.1 == 0, r.2.1, r.2.2), [command])

/-- One provider profile of `ENV_CONFIGS` (lines 31-55). -/
structure EnvConfig where
  ingress_class : String
  annots : List (String × String)
  setup_cmd : String
deriving Repr, DecidableEq

/-- The `{}` default used by `ENV_CONFIGS.get(environment, {})` followed by
`env_config.get('setup_cmd', '')`. -/
def emptyEnvConfig : EnvConfig := ⟨"", [], ""⟩

/-- `ENV_CONFIGS` (lines 31-55), in insertion order.  The braces of the AWS
`setup_cmd` placeholder `{cluster_name}` are written escaped. -/
def ENV_CONFIGS : List (String × EnvConfig) :=
  [("AWS",
    ⟨"alb",
     [("alb.ingress.kubernetes.io/scheme", "internet-facing"),
      ("service.beta.kubernetes.io/aws-load-balancer-scheme", "internet-facing")],
     "helm install aws-load-balancer-controller eks/aws-load-balancer-controller --namespace kube-system --set clusterName=\x7bcluster_name\x7d --set serviceAccount.create=false --set serviceAccount.name=aws-load-balancer-controller"⟩),
   ("GCP",
    ⟨"gce",
     [("kubernetes.io/ingress.class", "gce")],
     "helm install ingress-nginx ingress-nginx/ingress-nginx --namespace ingress-nginx --create-namespace --set controller.service.type=LoadBalancer"⟩),
   ("OVH",
    ⟨"nginx", [],
     "helm install ingress-nginx ingress-nginx/ingress-nginx --namespace ingress-nginx --create-namespace --set controller.service.type=LoadBalancer"⟩),
   ("Azure",
    ⟨"nginx", [],
     "helm install ingress-nginx ingress-nginx/ingress-nginx --namespace ingress-nginx --create-namespace --set controller.service.type=LoadBalancer"⟩)]

/-- The menu of `get_deployment_environment` (lines 100-106): the
`ENV_CONFIGS` keys plus `"On-Premise/VM"`; the operator's numeric choice
selects one of these strings. -/
def deploymentEnvironments : List String :=
  (ENV_CONFIGS.map (·.1)) ++ ["On-Premise/VM"]

/-- Character-level scan for `setup_cmd.format(namespace=ns)`: each
occurrence of the placeholder `{namespace}` is replaced by `ns`.  (Python's
`format` would raise a `KeyError` on any other placeholder; the only
reachable setup commands contain none at all.) -/
def formatNamespaceChars (ns : String) : List Char → List Char
  | [] => []
  | '\x7b' :: 'n' :: 'a' :: 'm' :: 'e' :: 's' :: 'p' :: 'a' :: 'c' :: 'e' :: '\x7d' :: rest =>
    ns.toList ++ formatNamespaceChars ns rest
  | c :: rest => c :: formatNamespaceChars ns rest

/-- `setup_cmd.format(namespace=namespace)`. -/
def formatNamespace (s ns : String) : String :=
  String.mk (formatNamespaceChars ns s.toList)

/-- `create_aws_load_balancer_controller` (lines 222-263): four sequential
commands, stopping at the first failure; `dryRun` is forwarded to every
`run_command` call.  The multi-line `eksctl`/`helm` strings are modelled
with single spaces in place of the original line breaks and indentation. -/
def create_aws_load_balancer_controller (cenv : CmdEnv)
    (cluster region ns : String) (dryRun : Bool) : Bool × List String :=
  let c1 := "helm repo add eks https://aws.github.io/eks-charts"
  let c2 := "helm repo update"
  let c3 := "eksctl create iamserviceaccount --cluster=" ++ cluster ++
    " --namespace=kube-system --name=aws-load-balancer-controller" ++
    " --attach-policy-arn=arn:aws:iam::aws:policy/ElasticLoadBalancingFullAccess" ++
    " --override-existing-serviceaccounts --approve --region=" ++ region
  let c4 := "helm install aws-load-balancer-controller eks/aws-load-balancer-controller -n kube-system --set clusterName=" ++
    cluster ++ " --set serviceAccount.create=false --set serviceAccount.name=aws-load-balancer-controller"
  let r1 := run_command cenv c1 false dryRun
  if !r1.1.1 then (false, r1.2)
  else
    let r2 := run_command cenv c2 false dryRun
    if !r2.1.1 then (false, r1.2 ++ r2.2)
    else
      let r3 := run_command cenv c3 false dryRun
      if !r3.1.1 then (false, r1.2 ++ r2.2 ++ r3.2)
      else
        let r4 := run_command cenv c4 false dryRun
        (r4.1.1, r1.2 ++ r2.2 ++ r3.2 ++ r4.2)

/-- `setup_ingress(environment, namespace, cluster_name, region)`
(lines 266-277).  It has no dry-run parameter: its `run_command` and
`create_aws_load_balancer_controller` calls use the default
`dry_run=False`. -/
def setup_ingress (cenv : CmdEnv) (environment ns : String)
    (cluster region : Option String) : Bool × List String :=
  if environment = "AWS" then
    match cluster, region with
    | some c, some r => create_aws_load_balancer_controller cenv c r ns false
    | _, _ => (false, [])
  else
    let cfg := (PyDict.pyGet ENV_CONFIGS environment).getD emptyEnvConfig
    if cfg.setup_cmd ≠ "" then
      let r := run_command cenv (formatNamespace cfg.setup_cmd ns) false false
      (r.1.1, r.2)
    else (true, [])

/-- The polling loop of `wait_for_ingress_address`, bounded by fuel. -/
def ingress_address_loop (cenv : CmdEnv) (cmd : String) :
    Nat → List String → Option String × List String
  | 0, tr => (none, tr)
  | n + 1, tr =>
    let r := run_command cenv cmd false false
    if PyStr.pyStrip r.1.2.1 ≠ "" then (some (PyStr.pyStrip r.1.2.1), tr ++ r.2)
    else ingress_address_loop cenv cmd n (tr ++ r.2)

/-- `wait_for_ingress_address` (lines 356-370): on a dry run it returns the
dummy address without issuing any command; otherwise it polls the ingress
jsonpath query (modelled with a fuel bound standing for the timeout). -/
def wait_for_ingress_address (cenv : CmdEnv) (ns : String) (dryRun : Bool)
    (fuel : Nat) : Option String × List String :=
  if dryRun then (some "dummy.ingress.address", [])
  else
    ingress_address_loop cenv
      ("kubectl get ingress -n " ++ ns ++ " -o jsonpath=ingress-address") fuel []

/-- `get_hopsworks_url` (lines 372-384). -/
def get_hopsworks_url (cenv : CmdEnv) (ns : String) (dryRun : Bool) :
    String × List String :=
  if dryRun then ("https://hopsworks.dryrun.local", [])
  else
    let cmd := "kubectl get ingress -n " ++ ns ++ " -o jsonpath=ingress-host"
    let r := run_command cenv cmd false false
    if r.1.1 && PyStr.pyStrip r.1.2.1 ≠ "" then
      ("https://" ++ PyStr.pyStrip r.1.2.1, r.2)
    else ("https://hopsworks.ai.local", r.2)

/-- `update_hosts_file` (lines 386-418): on a dry run it returns at once;
otherwise the only command it can spawn is the sudo-tee fallback, taken
when the operator asks for the update, the direct append raises
`PermissionError`, and the operator agrees to sudo. -/
def update_hosts_file (cenv : CmdEnv) (address host : String)
    (dryRun wantsUpdate directWriteOk wantsSudo : Bool) : List String :=
  if dryRun then []
  else if wantsUpdate then
    if directWriteOk then []
    else if wantsSudo then
      (run_command cenv
        ("echo '" ++ address ++ " " ++ host ++ "' | sudo tee -a /etc/hosts")
        false false).2
    else []
  else []

/-- `health_check` (lines 420-433): dry runs return `True` with no
command. -/
def health_check (cenv : CmdEnv) (ns : String) (dryRun : Bool) :
    Bool × List String :=
  if dryRun then (true, [])
  else
    let r := run_command cenv
      ("kubectl get pods -n " ++ ns ++ " -o jsonpath=phases") false false
    (r.1.1 && PyStr.containsSub r.1.2.1 "Running", r.2)

/-- The commands really spawned by the ingress/finalization phase of
`main` (lines 481-502): `setup_ingress` (called without any dry-run
argument), then `wait_for_ingress_address`, `get_hopsworks_url`,
`update_hosts_file` and `health_check`, each of which does receive
`args.dry_run`. -/
def main_ingress_phase_trace (cenv : CmdEnv) (environment ns : String)
    (cluster region : Option String) (dryRun : Bool) (fuel : Nat)
    (wantsUpdate directWriteOk wantsSudo : Bool) : List String :=
  let ing := setup_ingress cenv environment ns cluster region
  let addr := wait_for_ingress_address cenv ns dryRun fuel
  let url := get_hopsworks_url cenv ns dryRun
  let hosts := update_hosts_file cenv (addr.1.getD "") url.1
    dryRun wantsUpdate directWriteOk wantsSudo
  let hc := health_check cenv ns dryRun
  ing.2 ++ addr.2 ++ url.2 ++ hosts ++ hc.2

/-- The helm command assembled by `install_hopsworks` (lines 299-311); the
lookup `ENV_CONFIGS[environment]['ingress_class']` raises `KeyError` for an
identifier outside `ENV_CONFIGS`, modelled as `none`. -/
def install_helm_command (ns environment : String) : Option String :=
  (PyDict.pyGet ENV_CONFIGS environment).map (fun cfg =>
    "helm upgrade --install hopsworks-release hopsworks/hopsworks " ++
    "--namespace=" ++ ns ++ " --create-namespace --values hopsworks/values.yaml " ++
    "--set externalLoadBalancers.enabled=true --set ingress.enabled=true " ++
    "--set ingress.ingressClassName=" ++ cfg.ingress_class ++
    " --timeout 60m --wait --debug --devel")

end TotalInstall

namespace UltimateHops

/-- `send_user_data` of `ultimate_hops.py` (lines 86-103): on a
`requests.exceptions.RequestException` it returns `(False, None)` — the
generated identifier is dropped, not returned. -/
def send_user_data (genId : String) (postOk : Bool) : Bool × Option String :=
  if postOk then (true, some genId) else (false, none)

end UltimateHops

/-! # Theorems -/

namespace PyDict

/-- A successful lookup exhibits a binding of the list. -/
theorem pyGet_mem {α : Type} {d : List (String × α)} {k : String} {v : α}
    (h : pyGet d k = some v) : (k, v) ∈ d := by
  induction d with
  | nil => simp [pyGet] at h
  | cons hd rest ih =>
    obtain ⟨k', v'⟩ := hd
    by_cases hk : k' = k
    · subst hk
      simp [pyGet] at h
      subst h
      exact List.mem_cons_self _ _
    · simp [pyGet, hk] at h
      exact List.mem_cons_of_mem _ (ih h)

end PyDict

namespace HopDeploy

/-- C10: a poll cycle of `wait_for_pods_ready` whose status query succeeds
with an empty pod listing computes `ready_pods / total_pods` with
`total_pods = 0` and no guard, so the cycle raises `ZeroDivisionError`
(uncaught in `wait_for_pods_ready`, which only branches on the query's
success flag) instead of producing a boolean verdict or polling again. -/
theorem zero_pods_division_error (threshold : ℚ) :
    wait_for_pods_ready_cycle [] threshold = .error "ZeroDivisionError" :=
  rfl

end HopDeploy

namespace CommandRunner

/-- C9: the command runner returns `(succeeded, stdout, stderr)` with
`succeeded` true exactly for exit code 0; a raised exception is converted
into a `false` triple rather than propagated, and the timeout variant of
`pro_eks.py` answers a `TimeoutExpired` (whose child `subprocess.run` has
killed) with `(False, "", "Timeout")` instead of raising. -/
theorem run_command_contract :
    (∀ (code : Int) (out err : String),
        run_command (.exited code out err) = (code == 0, out, err))
    ∧ (∀ o : ProcOutcome,
        ((run_command o).1 = true ↔ ∃ out err, o = .exited 0 out err))
    ∧ (∀ (code : Int) (out err : String),
        (run_command_timeout (.exited code out err)).1 = (code == 0))
    ∧ run_command_timeout .timedOut = (false, "", "Timeout") := by
  refine ⟨fun _ _ _ => rfl, fun o => ?_, fun _ _ _ => rfl, rfl⟩
  cases o with
  | exited code out err =>
    constructor
    · intro h
      have : code = 0 := by simpa [run_command] using h
      exact ⟨out, err, by rw [this]⟩
    · rintro ⟨o', e', h⟩
      cases h
      simp [run_command]
  | raised msg =>
    constructor
    · intro h
      simp [run_command] at h
    · rintro ⟨o', e', h⟩
      cases h

end CommandRunner

namespace InstallHopsworks

/-- C3 counterexample: after a telemetry failure `send_user_data` does
return `(False, generatedId)`, but the caller
`handle_license_and_user_data` then stores the literal `"unknown"` as the
installation id — the originally generated identifier is substituted by a
fallback value (and the `ultimate_hops.py` variant even returns `None`
instead of the id). -/
theorem send_user_data_fallback_counterexample :
    send_user_data "abc-123" (.urlError "unreachable") = (false, "abc-123")
    ∧ handle_license_and_user_data false "abc-123" (.urlError "unreachable")
        = "unknown"
    ∧ "unknown" ≠ "abc-123"
    ∧ UltimateHops.send_user_data "abc-123" false = (false, none) :=
  ⟨rfl, rfl, by decide, rfl⟩

/-- C3 amended: on an unreachable endpoint `send_user_data` does not raise
past the caller and returns `(false, genId)` with the generated identifier,
which is the one embedded in the POST body; the main flow, however, then
replaces the installer's installation id with the literal `"unknown"`
(after printing a warning) rather than keeping the generated identifier. -/
theorem send_user_data_amended (genId msg name email company lt ts : String)
    (ag : Bool) :
    send_user_data genId (.urlError msg) = (false, genId)
    ∧ PyDict.pyGet (telemetry_body name email company lt ag genId ts)
        "installation_id" = some genId
    ∧ handle_license_and_user_data false genId (.urlError msg) = "unknown" :=
  ⟨rfl, rfl, rfl⟩

end InstallHopsworks

namespace TotalInstall

/-- C2: with `--dry-run`, `run_command` itself honours the flag (synthetic
success, nothing spawned), but `main` calls `setup_ingress` without passing
the flag and `setup_ingress` has no dry-run parameter, so the ingress phase
of a dry run still spawns the mutating `helm install ingress-nginx …`
command for real (here shown for the GCP profile; the AWS branch likewise
re-runs the load-balancer-controller commands with `dry_run=False`).  This
contradicts the script's own `--dry-run` help text, "Perform a dry run
without making changes". -/
theorem dry_run_ingress_executes_real_commands :
    (∀ (cenv : CmdEnv) (cmd : String) (verbose : Bool),
        run_command cenv cmd verbose true = ((true, "", ""), []))
    ∧ (∀ (cenv : CmdEnv) (ns : String) (cluster region : Option String)
        (fuel : Nat) (wantsUpdate directWriteOk wantsSudo : Bool),
        main_ingress_phase_trace cenv "GCP" ns cluster region true fuel
            wantsUpdate directWriteOk wantsSudo =
          ["helm install ingress-nginx ingress-nginx/ingress-nginx --namespace ingress-nginx --create-namespace --set controller.service.type=LoadBalancer"])
    ∧ PyStr.startsWithStr
        "helm install ingress-nginx ingress-nginx/ingress-nginx --namespace ingress-nginx --create-namespace --set controller.service.type=LoadBalancer"
        "helm install" = true :=
  ⟨fun _ _ _ => rfl, fun _ _ _ _ _ _ _ _ => rfl, rfl⟩

/-- C4 counterexample: the identifier `"On-Premise/VM"` is offered by the
selection menu but is not a key of `ENV_CONFIGS`; the profile lookup there
raises no ConfigurationError (no such error class exists in the scripts):
`setup_ingress` silently falls back to an empty profile and reports
success, while the install-command builder's direct subscript raises a
bare `KeyError` (modelled as `none`). -/
theorem profile_lookup_counterexample :
    PyDict.pyGet ENV_CONFIGS "On-Premise/VM" = none
    ∧ "On-Premise/VM" ∈ deploymentEnvironments
    ∧ setup_ingress (fun _ => (1, "", "")) "On-Premise/VM" "hopsworks" none none
        = (true, [])
    ∧ install_helm_command "hopsworks" "On-Premise/VM" = none :=
  ⟨rfl, by decide, rfl, rfl⟩

/-- C4 amended: the profile lookup returns a profile for each of the four
supported identifiers, but an unrecognized identifier does not fail with a
ConfigurationError: the `.get`-based lookup of `setup_ingress` silently
yields an empty default and succeeds, the subscript lookup of
`install_hopsworks` raises a `KeyError`, and `construct_helm_command` of
the other variant silently applies no cloud-specific overrides. -/
theorem profile_lookup_amended :
    ((PyDict.pyGet ENV_CONFIGS "AWS").isSome = true
     ∧ (PyDict.pyGet ENV_CONFIGS "GCP").isSome = true
     ∧ (PyDict.pyGet ENV_CONFIGS "OVH").isSome = true
     ∧ (PyDict.pyGet ENV_CONFIGS "Azure").isSome = true)
    ∧ PyDict.pyGet ENV_CONFIGS "On-Premise/VM" = none
    ∧ (∀ (cenv : CmdEnv) (ns : String) (cluster region : Option String),
        setup_ingress cenv "On-Premise/VM" ns cluster region = (true, []))
    ∧ (∀ ns : String, install_helm_command ns "On-Premise/VM" = none)
    ∧ (∀ (reg : Option InstallHopsworks.RegistryInfo) (sa : Option String),
        InstallHopsworks.merged_helm_values "On-Premise/VM" reg sa
          = InstallHopsworks.HELM_BASE_CONFIG) :=
  ⟨⟨rfl, rfl, rfl, rfl⟩, rfl, fun _ _ _ _ => rfl, fun _ => rfl, fun _ _ => rfl⟩

end TotalInstall

namespace InstallHopsworks

/-- With neither an override keypress nor an interrupt, the post-timeout
inner wait of `wait_for_deployment` never finishes. -/
theorem timeout_wait_never_returns (fuel t : Nat) :
    timeout_wait (fun _ => false) (fun _ => false) fuel t = none := by
  induction fuel generalizing t with
  | zero => rfl
  | succ n ih => simpa [timeout_wait] using ih (t + 1)

/-- C1 counterexample: `wait_for_deployment` with timeout 10 s over a
status source that never becomes ready and with no operator input has not
returned any boolean after 100 loop iterations — by which point the
modelled clock is far past timeout + one poll interval (the timeout is
crossed within the first three 5-second polls; every later iteration is
the blocking 1-second inner wait for a keypress).  The claim that the call
returns within T plus one poll interval absent operator input is false. -/
theorem wait_for_deployment_counterexample :
    wait_for_deployment (fun _ => false) (fun _ => false) (fun _ => false)
      10 100 0 = none :=
  rfl

/-- C1 amended: the readiness monitor returns `true` when a poll reports
readiness before the timeout or when the operator override fires, and
`false` on an operator interrupt; but once the timeout elapses with no
operator input it blocks forever in the keypress prompt — for every fuel
bound the never-ready, no-input run is still unfinished, so the monitor
does not terminate within T plus one poll interval absent operator
input. -/
theorem wait_for_deployment_amended :
    (∀ (timeout fuel t : Nat),
        wait_for_deployment (fun _ => false) (fun _ => false) (fun _ => false)
          timeout fuel t = none)
    ∧ (∀ fuel : Nat,
        wait_for_deployment (fun _ => true) (fun _ => false) (fun _ => false)
          10 (fuel + 1) 0 = some true)
    ∧ (∀ fuel : Nat,
        wait_for_deployment (fun _ => false) (fun _ => true) (fun _ => false)
          10 (fuel + 1) 0 = some true)
    ∧ (∀ fuel : Nat,
        wait_for_deployment (fun _ => false) (fun _ => false) (fun _ => true)
          10 (fuel + 1) 0 = some false) := by
  refine ⟨?_, fun _ => rfl, fun _ => rfl, fun _ => rfl⟩
  intro timeout fuel t
  induction fuel generalizing t with
  | zero => rfl
  | succ n ih =>
    by_cases h : timeout ≤ t
    · simp [wait_for_deployment, h, timeout_wait_never_returns]
    · simp [wait_for_deployment, h, ih]

end InstallHopsworks

namespace HopDeploy

/-- C7 counterexample: a cycle that sees 7 pods with 5 ready, threshold
0.7, and every critical-name pod ready, where the monitor nevertheless does
not declare readiness: only three pods carry critical names, so
`critical_ready == len(critical_pods)` (an equality against 4) fails even
though 5/7 ≥ 0.7. -/
theorem readiness_ratio_counterexample :
    sevenPodListing.length = 7
    ∧ readyCount sevenPodListing = 5
    ∧ sevenPodListing.all (fun p => !hasCriticalName p || podIsReady p) = true
    ∧ wait_for_pods_ready_cycle sevenPodListing (7/10) = .ok false := by
  refine ⟨rfl, rfl, rfl, ?_⟩
  have h1 : sevenPodListing.length = 7 := rfl
  have h3 : criticalReadyCount sevenPodListing = 3 := rfl
  unfold wait_for_pods_ready_cycle
  rw [h1, h3]
  norm_num [critical_pods]

/-- C7 amended: the cycle declares readiness when, besides the 5-of-7
ratio meeting the 0.7 threshold, the number of ready pods carrying a
critical-name substring equals the length of the critical list (4) — the
code compares that count for equality with `len(critical_pods)` rather
than checking that each critical name is covered. -/
theorem readiness_ratio_amended (pods : List Pod)
    (h1 : pods.length = 7) (h2 : readyCount pods = 5)
    (h3 : criticalReadyCount pods = 4) :
    wait_for_pods_ready_cycle pods (7/10) = .ok true := by
  unfold wait_for_pods_ready_cycle
  rw [h1, h2, h3]
  norm_num [critical_pods]

/-- Witness for the amended C7 theorem: the canonical listing with one
ready pod per critical name, one further ready pod and two unready pods. -/
theorem readiness_ratio_amended_witness :
    canonicalPodListing.length = 7
    ∧ readyCount canonicalPodListing = 5
    ∧ criticalReadyCount canonicalPodListing = 4
    ∧ wait_for_pods_ready_cycle canonicalPodListing (7/10) = .ok true :=
  ⟨rfl, rfl, rfl, readiness_ratio_amended canonicalPodListing rfl rfl rfl⟩

end HopDeploy

namespace InstallHopsworks

/-- C8 counterexample: all primary queries and the wide scan are empty and
the structured query parses two load-balancer services, the second of
which carries a non-placeholder address — yet the resolver returns `None`,
because at the structured-query stage it stops at the first service with a
non-empty ingress list and returns that entry's
`hostname or ip` even when both are absent.  So "returns null only after
every fallback attempt yields no non-placeholder value" is false. -/
theorem lb_resolver_counterexample :
    (get_load_balancer_address maskedView).1 = none
    ∧ ((maskedView.jsonOut.2.getD []).any
        (fun svc => svc.ingress.any (fun e => (pyOr e.hostname e.ip).isSome)))
      = true :=
  ⟨rfl, rfl⟩

/-- C8 amended: when the primary named-service queries come back empty the
resolver does attempt the namespace-wide load-balancer scan and then the
generic structured query before returning null — whenever it returns null,
all four queries were issued in order; but the structured query only
consults the first service with a non-empty ingress list (its first
entry's `hostname or ip`), so later services are never examined. -/
theorem lb_resolver_amended :
    (∀ v : ClusterView, (get_load_balancer_address v).1 = none →
        (get_load_balancer_address v).2
          = [.hostnameQ, .ipQ, .wideScan, .jsonQuery])
    ∧ (∀ (svc : SvcStatus) (rest : List SvcStatus) (e : IngressEntry)
        (es : List IngressEntry), svc.ingress = e :: es →
        json_stage (svc :: rest) = pyOr e.hostname e.ip) := by
  constructor
  · intro v h
    unfold get_load_balancer_address at h ⊢
    split at h
    · simp at h
    · split at h
      · simp at h
      · split at h
        · simp at h
        · split
          · simp_all
          · split
            · simp_all
            · rfl
  · intro svc rest e es hi
    unfold json_stage
    rw [hi]

/-- Witness for the amended C8 theorem: on a cluster where every query
fails the resolver returns null with all four queries attempted, and the
structured-query stage on a single service returns its first ingress
entry's value. -/
theorem lb_resolver_amended_witness :
    (get_load_balancer_address emptyView).1 = none
    ∧ (get_load_balancer_address emptyView).2
        = [.hostnameQ, .ipQ, .wideScan, .jsonQuery]
    ∧ (⟨[⟨some "h", none⟩]⟩ : SvcStatus).ingress = [⟨some "h", none⟩]
    ∧ json_stage [⟨[⟨some "h", none⟩]⟩] = pyOr (some "h") none :=
  ⟨rfl, lb_resolver_amended.1 emptyView rfl,
   rfl, lb_resolver_amended.2 ⟨[⟨some "h", none⟩]⟩ [] ⟨some "h", none⟩ [] rfl⟩

/-- C5: overlay precedence of `construct_helm_command`.  A parameter key
bound both in `HELM_BASE_CONFIG` and in the active provider's (possibly
dynamically updated) override dictionary ends up in the final flattened
value list with the provider's value; since the lookup is a function, the
base value cannot also appear under that key.  The dynamic registry and
service-account values are already folded into `cloud_config_full` by a
later `update`, so this also covers dynamic-over-static precedence. -/
theorem helm_overlay_precedence (env : String) (reg : Option RegistryInfo)
    (sa : Option String) (k : String) (vb vc : HVal)
    (hb : PyDict.pyGet HELM_BASE_CONFIG k = some vb)
    (hc : PyDict.pyGet (cloud_config_full env reg sa) k = some vc) :
    PyDict.pyGet (flat_helm_values env reg sa) k = some vc := by
  have hbm := PyDict.pyGet_mem hb
  cases hcsv : PyDict.pyGet CLOUD_SPECIFIC_VALUES env with
  | none =>
    unfold cloud_config_full at hc
    rw [hcsv] at hc
    simp [PyDict.pyGet] at hc
  | some cfg =>
    have henv := PyDict.pyGet_mem hcsv
    simp only [CLOUD_SPECIFIC_VALUES, List.mem_cons, List.not_mem_nil, or_false,
      Prod.mk.injEq] at henv
    simp only [HELM_BASE_CONFIG, List.mem_cons, List.not_mem_nil, or_false,
      Prod.mk.injEq] at hbm
    rcases henv with ⟨rfl, rfl⟩ | ⟨rfl, rfl⟩ | ⟨rfl, rfl⟩ | ⟨rfl, rfl⟩ <;>
      rcases hbm with ⟨rfl, rfl⟩ | ⟨rfl, rfl⟩ | ⟨rfl, rfl⟩ | ⟨rfl, rfl⟩ |
        ⟨rfl, rfl⟩ | ⟨rfl, rfl⟩ <;>
      cases reg <;>
      simp [cloud_config_full, CLOUD_SPECIFIC_VALUES, PyDict.pyGet,
        PyDict.dictUpdate, PyDict.setKey, saEmailVal, List.foldl_cons,
        List.foldl_nil] at hc <;>
      (subst hc; rfl)

/-- Witness for the C5 theorem: the key
`hopsworks.service.worker.external.https.type` is bound both in the base
configuration and in the Azure override set, and the flattened value list
carries the Azure value. -/
theorem helm_overlay_precedence_witness :
    PyDict.pyGet HELM_BASE_CONFIG
      "hopsworks.service.worker.external.https.type"
      = some (.str "LoadBalancer")
    ∧ PyDict.pyGet (cloud_config_full "Azure" none none)
        "hopsworks.service.worker.external.https.type"
        = some (.str "LoadBalancer")
    ∧ PyDict.pyGet (flat_helm_values "Azure" none none)
        "hopsworks.service.worker.external.https.type"
        = some (.str "LoadBalancer") :=
  ⟨rfl, rfl, helm_overlay_precedence "Azure" none none _ _ _ rfl rfl⟩

/-- C6 counterexample: on AWS with unresolved registry coordinates the
flattened value list has no binding at all for the registry-domain path
and no `--set` flag for it is emitted — the override is omitted, not
emitted with an empty/null placeholder. -/
theorem dynamic_value_omitted_counterexample :
    PyDict.pyGet (flat_helm_values "AWS" none none)
      "global._hopsworks.managedDockerRegistery.domain" = none
    ∧ (set_args "AWS" none none).all
        (fun s => !(PyStr.startsWithStr s
          "--set global._hopsworks.managedDockerRegistery.domain=")) = true :=
  ⟨rfl, rfl⟩

/-- C6 amended: only the service-account email behaves as the claim says
— when the GCP registry coordinates were resolved but `sa_email` is
absent, the annotation override is emitted with the `null` placeholder;
the registry domain and namespace overrides themselves are omitted from
the command line entirely (for AWS and GCP alike) whenever the registry
info was not resolved. -/
theorem dynamic_value_amended :
    (∀ d n : String,
        PyDict.pyGet (flat_helm_values "GCP" (some ⟨d, n⟩) none)
          "serviceAccount.annotations.iam\\.gke\\.io/gcp-service-account"
          = some .null
        ∧ "--set serviceAccount.annotations.iam\\.gke\\.io/gcp-service-account=null"
            ∈ set_args "GCP" (some ⟨d, n⟩) none)
    ∧ (∀ sa : Option String,
        PyDict.pyGet (flat_helm_values "AWS" none sa)
          "global._hopsworks.managedDockerRegistery.domain" = none)
    ∧ (∀ sa : Option String,
        PyDict.pyGet (flat_helm_values "GCP" none sa)
          "global._hopsworks.managedDockerRegistery.domain" = none) := by
  refine ⟨fun d n => ⟨rfl, ?_⟩, fun _ => rfl, fun _ => rfl⟩
  have hm : ("serviceAccount.annotations.iam\\.gke\\.io/gcp-service-account",
      HVal.null) ∈ flat_helm_values "GCP" (some ⟨d, n⟩) none :=
    PyDict.pyGet_mem rfl
  exact List.mem_map_of_mem
    (fun kv => "--set " ++ kv.1 ++ "=" ++ render_value kv.2) hm

end InstallHopsworks
